import Mathlib

/-!
Shallow embedding of the geographical-domain core of the MT-MLULC
repository (files `mmt/utils/domains.py`, `mmt/datasets/landcovers.py`,
`mmt/inference/io.py`), together with theorems settling the claims about it.

Coordinates are embedded as rationals (`ℚ`): every construct proved about
here is exact decimal arithmetic (comparisons, min/max, truncation), on
which Python floats and rationals agree for the literals involved.
-/

/-- Errors raised by the embedded Python code.
`invalidDomain` stands for the `ValueError("Incoherent min/max values …")`
raised by `GeoRectangle.__init__` (the spec's `InvalidDomainError`);
`unknownFormat` for `ValueError(f"Unknown format {fmt}")` (the spec's
`UnsupportedFormatError`); `typeError` for a Python `TypeError`/`IndexError`
on coordinates of the wrong shape; `unboundLocal` for Python's
`UnboundLocalError` (reading a local variable that was never assigned);
`notModelled` marks the `json`/`epsg` branches, which need file parsing or
cartographic projection and are outside this embedding. -/
inductive PyError where
  | invalidDomain : PyError
  | unknownFormat : String → PyError
  | typeError : PyError
  | unboundLocal : PyError
  | notModelled : PyError
deriving Repr, DecidableEq

/-- The four canonical attributes of `GeoRectangle` (src/mmt/utils/domains.py,
class `GeoRectangle`). -/
structure GeoRectangle where
  min_longitude : ℚ
  max_longitude : ℚ
  min_latitude : ℚ
  max_latitude : ℚ
deriving Repr, DecidableEq, Inhabited

/-- `torchgeo.datasets.utils.BoundingBox`: a foreign bounding-box value with
`minx/maxx/miny/maxy` and time bounds `mint/maxt`. -/
structure TgeoBoundingBox where
  minx : ℚ
  maxx : ℚ
  miny : ℚ
  maxy : ℚ
  mint : ℚ
  maxt : ℚ
deriving Repr, DecidableEq, Inhabited

/-- The coordinate argument of `GeoRectangle.__init__`: an array-like of
shape (2,2) (`pairs`), a flat array-like of shape (4,) (`flat`), a list of
(lon, lat) points (`points`), or a torchgeo `BoundingBox` (`tgbox`).
GeoJSON strings (fmt="json") and projected coordinates (fmt="epsg") are not
representable here; those two branches are not modelled. -/
inductive Coords where
  | pairs : ℚ × ℚ → ℚ × ℚ → Coords
  | flat : ℚ → ℚ → ℚ → ℚ → Coords
  | points : List (ℚ × ℚ) → Coords
  | tgbox : TgeoBoundingBox → Coords
deriving Repr, DecidableEq

/-- `GeoRectangle.extract_boundingbox_`: bounding box of a list of
(lon, lat) points, folding `min`/`max` from the initial values
minlat=90, maxlat=-90, minlon=180, maxlon=-180. -/
def extract_boundingbox (points : List (ℚ × ℚ)) : GeoRectangle :=
  let st := points.foldl
    (fun (acc : ℚ × ℚ × ℚ × ℚ) (point : ℚ × ℚ) =>
      let lon := point.1
      let lat := point.2
      (min acc.1 lat, max acc.2.1 lat, min acc.2.2.1 lon, max acc.2.2.2 lon))
    (90, -90, 180, -180)
  { min_longitude := st.2.2.1, max_longitude := st.2.2.2,
    min_latitude := st.1, max_latitude := st.2.1 }

/-- Format dispatch of `GeoRectangle.__init__` (before the min/max
validation).  The Python source contains two successive conditionals:
`if fmt=="tlbr": …` is a standalone `if` statement, and `if fmt=="itlbr":
… elif fmt=="bltr": … elif … else: raise ValueError(f"Unknown format
{fmt}")` is a second, separate if/elif/else chain.  Hence for
fmt="tlbr" the four attributes are assigned by the first statement, but the
second chain matches none of its branches and its `else` raises the
unknown-format error, so `__init__` never returns an object. -/
def geoRectangle_extract (coords : Coords) (fmt : String) : Except PyError GeoRectangle :=
  if fmt = "tlbr" then
    match coords with
    | .pairs _ _ => .error (.unknownFormat fmt)
    | _ => .error .typeError
  else if fmt = "itlbr" then
    match coords with
    | .pairs p q =>
        .ok { max_latitude := p.1, min_longitude := p.2,
              min_latitude := q.1, max_longitude := q.2 }
    | _ => .error .typeError
  else if fmt = "bltr" then
    match coords with
    | .pairs p q =>
        .ok { min_longitude := p.1, max_longitude := p.2,
              min_latitude := q.1, max_latitude := q.2 }
    | _ => .error .typeError
  else if fmt = "llmm" then
    match coords with
    | .flat a b c d =>
        .ok { min_longitude := a, max_longitude := b,
              min_latitude := c, max_latitude := d }
    | _ => .error .typeError
  else if fmt = "lbrt" then
    match coords with
    | .flat a b c d =>
        .ok { min_longitude := a, max_longitude := c,
              min_latitude := b, max_latitude := d }
    | _ => .error .typeError
  else if fmt = "json" then
    .error .notModelled
  else if fmt = "points" then
    match coords with
    | .points ps => .ok (extract_boundingbox ps)
    | _ => .error .typeError
  else if fmt = "tgbox" then
    match coords with
    | .tgbox b =>
        .ok { min_longitude := b.minx, max_longitude := b.maxx,
              min_latitude := b.miny, max_latitude := b.maxy }
    | _ => .error .typeError
  else if fmt = "epsg" then
    .error .notModelled
  else
    .error (.unknownFormat fmt)

/-- `GeoRectangle.__init__`: format dispatch followed by the final
validation `if self.min_longitude > self.max_longitude or
self.min_latitude > self.max_latitude: raise ValueError(…)`. -/
def geoRectangle_init (coords : Coords) (fmt : String) : Except PyError GeoRectangle :=
  match geoRectangle_extract coords fmt with
  | .error e => .error e
  | .ok r =>
      if r.min_longitude > r.max_longitude ∨ r.min_latitude > r.max_latitude then
        .error .invalidDomain
      else
        .ok r

/-- `GeoRectangle.to_llmm`: `(min_longitude, max_longitude, min_latitude,
max_latitude)`. -/
def GeoRectangle.to_llmm (r : GeoRectangle) : ℚ × ℚ × ℚ × ℚ :=
  (r.min_longitude, r.max_longitude, r.min_latitude, r.max_latitude)

/-- `GeoRectangle.to_bltr`: `((min_longitude, min_latitude),
(max_longitude, max_latitude))`. -/
def GeoRectangle.to_bltr (r : GeoRectangle) : (ℚ × ℚ) × (ℚ × ℚ) :=
  ((r.min_longitude, r.min_latitude), (r.max_longitude, r.max_latitude))

/-- `GeoRectangle.to_lbrt`: `(min_longitude, min_latitude, max_longitude,
max_latitude)`. -/
def GeoRectangle.to_lbrt (r : GeoRectangle) : ℚ × ℚ × ℚ × ℚ :=
  (r.min_longitude, r.min_latitude, r.max_longitude, r.max_latitude)

/-- `GeoRectangle.to_tlbr`: `((min_longitude, max_latitude),
(max_longitude, min_latitude))`. -/
def GeoRectangle.to_tlbr (r : GeoRectangle) : (ℚ × ℚ) × (ℚ × ℚ) :=
  ((r.min_longitude, r.max_latitude), (r.max_longitude, r.min_latitude))

/-- `GeoRectangle.to_mmll`: `(min_longitude, min_latitude, max_longitude,
max_latitude)` (the body found in the source, notwithstanding the name). -/
def GeoRectangle.to_mmll (r : GeoRectangle) : ℚ × ℚ × ℚ × ℚ :=
  (r.min_longitude, r.min_latitude, r.max_longitude, r.max_latitude)

/-- `get_central_point`: arithmetic midpoint of min/max in each axis. -/
def get_central_point (domain : GeoRectangle) : ℚ × ℚ :=
  ((domain.min_longitude + domain.max_longitude) / 2,
   (domain.min_latitude + domain.max_latitude) / 2)

/-- `enlarge_domain(domain, factor)`: grows the extent by `factor × width`
per side in longitude and `factor × height` per side in latitude, clamps to
±180°/±90°, and rebuilds through `GeoRectangle(…, fmt="llmm")`. -/
def enlarge_domain (domain : GeoRectangle) (factor : ℚ) : Except PyError GeoRectangle :=
  let xmin := domain.min_longitude
  let xmax := domain.max_longitude
  let ymin := domain.min_latitude
  let ymax := domain.max_latitude
  let dx := |xmax - xmin|
  let dy := |ymax - ymin|
  geoRectangle_init
    (.flat (max (-180) (xmin - factor * dx)) (min 180 (xmax + factor * dx))
           (max (-90) (ymin - factor * dy)) (min 90 (ymax + factor * dy)))
    "llmm"

/-- `GeoRectangle.enlarge`: delegates to `enlarge_domain`. -/
def GeoRectangle.enlarge (r : GeoRectangle) (factor : ℚ) : Except PyError GeoRectangle :=
  enlarge_domain r factor

/-- The module-level registry entry
`waterville_kerry = GeoRectangle([-10.2018, -10.1518, 51.8020, 51.8466])`
(default format "llmm"). -/
def waterville_kerry : Except PyError GeoRectangle :=
  geoRectangle_init (.flat (-10.2018) (-10.1518) 51.8020 51.8466) "llmm"

/-- Shapely `box(a.to_mmll()).equals(box(b.to_mmll()))` specialised to the
axis-aligned, non-degenerate rectangles handled here: geometric equality of
the two box polygons is equality of the four extrema. -/
def sboxEquals (a b : GeoRectangle) : Bool :=
  decide (a.min_longitude = b.min_longitude ∧ a.max_longitude = b.max_longitude ∧
          a.min_latitude = b.min_latitude ∧ a.max_latitude = b.max_latitude)

/-- Shapely `box(…).intersects(box(…))` specialised to axis-aligned
rectangles: the closed boxes share a point (touching boundaries count as
intersecting, per shapely's closed-polygon semantics). -/
def sboxIntersects (a b : GeoRectangle) : Bool :=
  decide (a.min_longitude ≤ b.max_longitude ∧ b.min_longitude ≤ a.max_longitude ∧
          a.min_latitude ≤ b.max_latitude ∧ b.min_latitude ≤ a.max_latitude)

/-- `find_intersection(dataset, domain, unique)` (src/mmt/utils/domains.py).
The dataset is embedded as the list of its tiles' bounding boxes
(`dataset.get_boundingbox(idx).to_sbox()` becomes a list lookup; the
`.source` fallback is one wrapper level of the same capability).  The scan
appends each intersecting index; with `unique`, a candidate whose box
equals the box of an already accepted index is skipped. -/
def find_intersection (dataset : List GeoRectangle) (domain : GeoRectangle)
    (unique : Bool) : List ℕ :=
  (List.range dataset.length).foldl
    (fun idxs idx =>
      let bbox := dataset.getD idx default
      if sboxIntersects domain bbox then
        if unique then
          if idxs.any (fun i => sboxEquals bbox (dataset.getD i default)) then
            idxs
          else
            idxs ++ [idx]
        else
          idxs ++ [idx]
      else
        idxs)
    []

/-- Modelled from the spec: `mmt.utils.misc.get_bytes_for_domain`
(module mmt/utils/misc.py is absent from the sources at hand).  Spec §4.3:
the number of raster cells needed to cover the query domain at the given
linear resolution in each of the two spatial dimensions, multiplied by the
per-dataset element size in bytes. -/
def misc_get_bytes_for_domain (qdomain : GeoRectangle) (res : ℚ)
    (element_size : ℤ) : ℤ :=
  ⌈(qdomain.max_longitude - qdomain.min_longitude) / res⌉ *
    ⌈(qdomain.max_latitude - qdomain.min_latitude) / res⌉ * element_size

/-- The query argument of `get_bytes_for_domain`: either a torchgeo
`BoundingBox` (caught by the `isinstance(qb, tgd.BoundingBox)` test) or a
GeoRectangle-compatible value (not caught by it). -/
inductive QueryDomain where
  | tgbox : TgeoBoundingBox → QueryDomain
  | rect : GeoRectangle → QueryDomain
deriving Repr, DecidableEq

/-- Class attribute `TorchgeoLandcover.element_size = 8` (bytes per pixel). -/
def TorchgeoLandcover.element_size : ℤ := 8

/-- Class attribute `ProbaLandcover.element_size = 32` (bytes per pixel). -/
def ProbaLandcover.element_size : ℤ := 32

/-- `TorchgeoLandcover.get_bytes_for_domain(self, qb)`
(src/mmt/datasets/landcovers.py).  The body assigns `qdomain` only inside
`if isinstance(qb, tgd.BoundingBox):`; there is no `else` branch, so for a
non-BoundingBox argument the subsequent read of `qdomain` raises
`UnboundLocalError`. -/
def TorchgeoLandcover.get_bytes_for_domain (res : ℚ) (qb : QueryDomain) :
    Except PyError ℤ :=
  match qb with
  | .tgbox b =>
      match geoRectangle_init (.tgbox b) "tgbox" with
      | .error e => .error e
      | .ok qdomain =>
          .ok (misc_get_bytes_for_domain qdomain res TorchgeoLandcover.element_size)
  | .rect _ => .error .unboundLocal

/-- `ProbaLandcover.get_bytes_for_domain(self, qb)`
(src/mmt/datasets/landcovers.py).  Unlike the TorchgeoLandcover version,
its conditional has an `else: qdomain = qb` branch. -/
def ProbaLandcover.get_bytes_for_domain (res : ℚ) (qb : QueryDomain) :
    Except PyError ℤ :=
  match qb with
  | .tgbox b =>
      match geoRectangle_init (.tgbox b) "tgbox" with
      | .error e => .error e
      | .ok qdomain =>
          .ok (misc_get_bytes_for_domain qdomain res ProbaLandcover.element_size)
  | .rect qdomain =>
      .ok (misc_get_bytes_for_domain qdomain res ProbaLandcover.element_size)

/-- Python's `int()` applied to an exact rational: truncation toward zero. -/
def pyInt (q : ℚ) : ℤ :=
  Int.tdiv q.num (q.den : ℤ)

/-- The two fields of the model configuration that
`get_resize_from_mapname` reads: the embedding pixel count (old configs:
`config.embedding_dim[1]`; new configs: `config.dimensions.n_px_embedding`,
selected by the try/except) and the model type (`config.model_type` resp.
`config.model.type`). -/
structure Config where
  n_px_emb : ℚ
  model_type : String
deriving Repr, DecidableEq

/-- The `.hdf5`-suffix normalisation at the start of
`get_resize_from_mapname`: `if not mapname.endswith(".hdf5"): mapname +=
".hdf5"`. -/
def hdf5_key (mapname : String) : String :=
  if mapname.endsWith ".hdf5" then mapname else mapname ++ ".hdf5"

/-- `get_resize_from_mapname(mapname, config)` (src/mmt/inference/io.py).
`resolution_dict` and `patch_size_metres` live in the module
`mmt.datasets.landcover_to_landcover`, which is absent from the sources at
hand; they are passed as parameters (a per-product resolution table and the
patch size in metres).  The source computes
`resize = int(n_px_emb * resolution / patch_size_metres)` and replaces a
resize of exactly 1 by `None` for the two embedding-style model types. -/
def get_resize_from_mapname (resolution_dict : String → ℚ)
    (patch_size_metres : ℚ) (mapname : String) (config : Config) : Option ℤ :=
  let mapname := hdf5_key mapname
  let n_px_emb := config.n_px_emb
  let model_type := config.model_type
  let resolution := resolution_dict mapname
  let resize := pyInt (n_px_emb * resolution / patch_size_metres)
  if model_type ∈ ["transformer_embedding", "universal_embedding"] ∧ resize = 1 then
    none
  else
    some resize

/-- Modelled from the spec: the spec's formula for the resize factor,
`resize = round(embedding_pixels * product_resolution / patch_size_metres)`
with rounding to the nearest integer, kept alongside
`get_resize_from_mapname` for comparison. -/
def get_resize_from_mapname_spec (resolution_dict : String → ℚ)
    (patch_size_metres : ℚ) (mapname : String) (config : Config) : Option ℤ :=
  let mapname := hdf5_key mapname
  let resize := round (config.n_px_emb * resolution_dict mapname / patch_size_metres)
  if config.model_type ∈ ["transformer_embedding", "universal_embedding"] ∧ resize = 1 then
    none
  else
    some resize

/-- Containment of one rectangle in another: the usual formalisation of
"`A` contains `B`" for axis-aligned lon/lat rectangles, used to state the
enlarge-monotonicity claim. -/
def GeoRectangle.contains (outer inner : GeoRectangle) : Prop :=
  outer.min_longitude ≤ inner.min_longitude ∧
  inner.max_longitude ≤ outer.max_longitude ∧
  outer.min_latitude ≤ inner.min_latitude ∧
  inner.max_latitude ≤ outer.max_latitude

instance (a b : GeoRectangle) : Decidable (GeoRectangle.contains a b) := by
  unfold GeoRectangle.contains
  infer_instance

/-- The loop body of `find_intersection` when `unique=True`, named for the
proofs below (definitionally equal to the lambda inside
`find_intersection`). -/
def uniq_step (ds : List GeoRectangle) (dom : GeoRectangle)
    (idxs : List ℕ) (idx : ℕ) : List ℕ :=
  if sboxIntersects dom (ds.getD idx default) then
    if idxs.any (fun i => sboxEquals (ds.getD idx default) (ds.getD i default)) then
      idxs
    else
      idxs ++ [idx]
  else
    idxs

theorem extract_llmm (a b c d : ℚ) :
    geoRectangle_extract (.flat a b c d) "llmm" = .ok ⟨a, b, c, d⟩ := rfl

theorem extract_lbrt (a b c d : ℚ) :
    geoRectangle_extract (.flat a b c d) "lbrt" = .ok ⟨a, c, b, d⟩ := rfl

theorem extract_bltr (p q : ℚ × ℚ) :
    geoRectangle_extract (.pairs p q) "bltr" = .ok ⟨p.1, p.2, q.1, q.2⟩ := rfl

theorem extract_itlbr (p q : ℚ × ℚ) :
    geoRectangle_extract (.pairs p q) "itlbr" = .ok ⟨p.2, q.2, q.1, p.1⟩ := rfl

theorem extract_tlbr (p q : ℚ × ℚ) :
    geoRectangle_extract (.pairs p q) "tlbr" = .error (.unknownFormat "tlbr") := rfl

theorem extract_tgbox (b : TgeoBoundingBox) :
    geoRectangle_extract (.tgbox b) "tgbox" = .ok ⟨b.minx, b.maxx, b.miny, b.maxy⟩ := rfl

theorem init_ok (coords : Coords) (fmt : String) (r : GeoRectangle)
    (hex : geoRectangle_extract coords fmt = .ok r)
    (h1 : r.min_longitude ≤ r.max_longitude) (h2 : r.min_latitude ≤ r.max_latitude) :
    geoRectangle_init coords fmt = .ok r := by
  rw [geoRectangle_init, hex]
  show (if r.min_longitude > r.max_longitude ∨ r.min_latitude > r.max_latitude
      then Except.error PyError.invalidDomain else Except.ok r) = Except.ok r
  rw [if_neg]
  push_neg
  exact ⟨h1, h2⟩

theorem init_invalid (coords : Coords) (fmt : String) (r : GeoRectangle)
    (hex : geoRectangle_extract coords fmt = .ok r)
    (h : r.max_longitude < r.min_longitude ∨ r.max_latitude < r.min_latitude) :
    geoRectangle_init coords fmt = .error .invalidDomain := by
  rw [geoRectangle_init, hex]
  show (if r.min_longitude > r.max_longitude ∨ r.min_latitude > r.max_latitude
      then Except.error PyError.invalidDomain else Except.ok r)
    = Except.error PyError.invalidDomain
  rw [if_pos h]

theorem sboxEquals_refl (a : GeoRectangle) : sboxEquals a a = true := by
  simp [sboxEquals]

theorem sboxEquals_symm {a b : GeoRectangle} (h : sboxEquals a b = true) :
    sboxEquals b a = true := by
  simp [sboxEquals] at h ⊢
  obtain ⟨h1, h2, h3, h4⟩ := h
  exact ⟨h1.symm, h2.symm, h3.symm, h4.symm⟩

theorem sboxEquals_trans {a b c : GeoRectangle} (h : sboxEquals a b = true)
    (h' : sboxEquals b c = true) : sboxEquals a c = true := by
  simp [sboxEquals] at h h' ⊢
  obtain ⟨h1, h2, h3, h4⟩ := h
  obtain ⟨h5, h6, h7, h8⟩ := h'
  exact ⟨h1.trans h5, h2.trans h6, h3.trans h7, h4.trans h8⟩

theorem foldl_filter_step (P : ℕ → Bool) (l : List ℕ) (acc : List ℕ) :
    l.foldl (fun idxs idx => if P idx then idxs ++ [idx] else idxs) acc
      = acc ++ l.filter P := by
  induction l generalizing acc with
  | nil => simp
  | cons x xs ih =>
      rw [List.foldl_cons, List.filter_cons, ih]
      by_cases h : P x <;> simp [h]

theorem find_intersection_false_eq (ds : List GeoRectangle) (dom : GeoRectangle) :
    find_intersection ds dom false
      = (List.range ds.length).filter
          (fun k => sboxIntersects dom (ds.getD k default)) := by
  show (List.range ds.length).foldl
      (fun idxs idx =>
        if sboxIntersects dom (ds.getD idx default) then idxs ++ [idx] else idxs) []
    = _
  rw [foldl_filter_step]
  simp

theorem find_intersection_true_eq (ds : List GeoRectangle) (dom : GeoRectangle) :
    find_intersection ds dom true
      = (List.range ds.length).foldl (uniq_step ds dom) [] := rfl

theorem mem_uniq_foldl (ds : List GeoRectangle) (dom : GeoRectangle) :
    ∀ k m : ℕ,
      (m ∈ (List.range k).foldl (uniq_step ds dom) []
        ↔ m < k ∧ sboxIntersects dom (ds.getD m default) = true ∧
          ∀ l, l < m → sboxEquals (ds.getD m default) (ds.getD l default) = true →
            sboxIntersects dom (ds.getD l default) = false) := by
  intro k
  induction k with
  | zero => intro m; simp
  | succ n ih =>
      intro m
      rw [List.range_succ, List.foldl_append, List.foldl_cons, List.foldl_nil]
      rw [uniq_step]
      by_cases hPn : sboxIntersects dom (ds.getD n default) = true
      · rw [if_pos hPn]
        by_cases hAny : ((List.range n).foldl (uniq_step ds dom) []).any
            (fun i => sboxEquals (ds.getD n default) (ds.getD i default)) = true
        · rw [if_pos hAny]
          obtain ⟨i0, hi0A, hi0eq⟩ := List.any_eq_true.mp hAny
          have hi0 := (ih i0).mp hi0A
          constructor
          · intro hm
            have h := (ih m).mp hm
            exact ⟨Nat.lt_succ_of_lt h.1, h.2⟩
          · rintro ⟨hmlt, hPm, hmin⟩
            rcases Nat.lt_succ_iff_lt_or_eq.mp hmlt with h | h
            · exact (ih m).mpr ⟨h, hPm, hmin⟩
            · subst h
              have hfalse := hmin i0 hi0.1 hi0eq
              rw [hi0.2.1] at hfalse
              simp at hfalse
        · rw [if_neg hAny]
          rw [List.mem_append, List.mem_singleton]
          have hAny' : ∀ i ∈ (List.range n).foldl (uniq_step ds dom) [],
              ¬ (sboxEquals (ds.getD n default) (ds.getD i default) = true) := by
            intro i hiA hcon
            exact hAny (List.any_eq_true.mpr ⟨i, hiA, hcon⟩)
          constructor
          · rintro (hm | hmn)
            · have h := (ih m).mp hm
              exact ⟨Nat.lt_succ_of_lt h.1, h.2⟩
            · subst m
              refine ⟨Nat.lt_succ_self n, hPn, ?_⟩
              intro l hl hleq
              by_contra hPl
              rw [Bool.not_eq_false] at hPl
              have hQ : ∃ x, x < n ∧
                  sboxEquals (ds.getD n default) (ds.getD x default) = true ∧
                  sboxIntersects dom (ds.getD x default) = true := ⟨l, hl, hleq, hPl⟩
              have hx0 := Nat.find_spec hQ
              have hx0A : Nat.find hQ ∈ (List.range n).foldl (uniq_step ds dom) [] := by
                refine (ih (Nat.find hQ)).mpr ⟨hx0.1, hx0.2.2, ?_⟩
                intro y hy hyeq
                by_contra hPy
                rw [Bool.not_eq_false] at hPy
                exact Nat.find_min hQ hy
                  ⟨hy.trans hx0.1, sboxEquals_trans hx0.2.1 hyeq, hPy⟩
              exact hAny' (Nat.find hQ) hx0A hx0.2.1
          · rintro ⟨hmlt, hPm, hmin⟩
            rcases Nat.lt_succ_iff_lt_or_eq.mp hmlt with h | h
            · exact Or.inl ((ih m).mpr ⟨h, hPm, hmin⟩)
            · exact Or.inr h
      · rw [if_neg hPn]
        constructor
        · intro hm
          have h := (ih m).mp hm
          exact ⟨Nat.lt_succ_of_lt h.1, h.2⟩
        · rintro ⟨hmlt, hPm, hmin⟩
          rcases Nat.lt_succ_iff_lt_or_eq.mp hmlt with h | h
          · exact (ih m).mpr ⟨h, hPm, hmin⟩
          · subst h
            exact absurd hPm hPn

theorem enlarge_domain_eq (R : GeoRectangle) (f : ℚ)
    (hx : R.min_longitude ≤ R.max_longitude)
    (hy : R.min_latitude ≤ R.max_latitude)
    (hlon1 : -180 ≤ R.min_longitude) (hlon2 : R.max_longitude ≤ 180)
    (hlat1 : -90 ≤ R.min_latitude) (hlat2 : R.max_latitude ≤ 90)
    (hf : 0 ≤ f) :
    enlarge_domain R f = .ok
      ⟨max (-180) (R.min_longitude - f * (R.max_longitude - R.min_longitude)),
       min 180 (R.max_longitude + f * (R.max_longitude - R.min_longitude)),
       max (-90) (R.min_latitude - f * (R.max_latitude - R.min_latitude)),
       min 90 (R.max_latitude + f * (R.max_latitude - R.min_latitude))⟩ := by
  have hdx : 0 ≤ R.max_longitude - R.min_longitude := by linarith
  have hdy : 0 ≤ R.max_latitude - R.min_latitude := by linarith
  have hfdx : 0 ≤ f * (R.max_longitude - R.min_longitude) := mul_nonneg hf hdx
  have hfdy : 0 ≤ f * (R.max_latitude - R.min_latitude) := mul_nonneg hf hdy
  simp only [enlarge_domain]
  rw [abs_of_nonneg (by linarith : (0:ℚ) ≤ R.max_longitude - R.min_longitude),
    abs_of_nonneg (by linarith : (0:ℚ) ≤ R.max_latitude - R.min_latitude)]
  apply init_ok _ _ _ (extract_llmm _ _ _ _)
  · apply max_le
    · exact le_min (by norm_num) (by linarith)
    · exact le_min (by linarith) (by linarith)
  · apply max_le
    · exact le_min (by norm_num) (by linarith)
    · exact le_min (by linarith) (by linarith)

/-- Claim C1 (refuted at fmt="tlbr"): for a logical box with top-left corner
(x1, y1) and bottom-right corner (x3, y3), the `bltr`, `llmm` and `lbrt`
encodings all construct the same canonical fields (x1, x3, y3, y1), but the
`tlbr` encoding never succeeds: because the tlbr branch of `__init__` is a
standalone `if` followed by a fresh if/elif/else chain, construction with
fmt="tlbr" always raises the unknown-format error, contrary to the claim
that it does not raise. -/
theorem C1_tlbr_raises (x1 y1 x3 y3 : ℚ) (hx : x1 ≤ x3) (hy : y3 ≤ y1) :
    geoRectangle_init (.pairs (x1, y1) (x3, y3)) "tlbr" = .error (.unknownFormat "tlbr") ∧
    geoRectangle_init (.pairs (x1, x3) (y3, y1)) "bltr" = .ok ⟨x1, x3, y3, y1⟩ ∧
    geoRectangle_init (.flat x1 x3 y3 y1) "llmm" = .ok ⟨x1, x3, y3, y1⟩ ∧
    geoRectangle_init (.flat x1 y3 x3 y1) "lbrt" = .ok ⟨x1, x3, y3, y1⟩ := by
  refine ⟨?_, ?_, ?_, ?_⟩
  · rw [geoRectangle_init, extract_tlbr]
  · exact init_ok _ _ _ (extract_bltr _ _) hx hy
  · exact init_ok _ _ _ (extract_llmm _ _ _ _) hx hy
  · exact init_ok _ _ _ (extract_lbrt _ _ _ _) hx hy

/-- Witness for C1_tlbr_raises at the valid box x1=0, y1=1, x3=2, y3=0. -/
theorem C1_witness :
    geoRectangle_init (.pairs (0, 1) (2, 0)) "tlbr" = .error (.unknownFormat "tlbr") ∧
    geoRectangle_init (.pairs (0, 2) (0, 1)) "bltr" = .ok ⟨0, 2, 0, 1⟩ ∧
    geoRectangle_init (.flat 0 2 0 1) "llmm" = .ok ⟨0, 2, 0, 1⟩ ∧
    geoRectangle_init (.flat 0 0 2 1) "lbrt" = .ok ⟨0, 2, 0, 1⟩ :=
  C1_tlbr_raises 0 1 2 0 (by norm_num) (by norm_num)

/-- Claim C4 (refuted at fmt="tlbr", confirmed for every format whose
extraction succeeds): whenever the format dispatch extracts the four fields
and `min_longitude > max_longitude` or `min_latitude > max_latitude`,
construction fails with the incoherent-min/max error (the spec's
`InvalidDomainError`).  For fmt="tlbr", however, a malformed corner pair
(here min_longitude 2 > max_longitude 0) raises the unknown-format error
instead, because the tlbr branch never reaches the validation. -/
theorem C4_incoherent_minmax :
    geoRectangle_init (.pairs (2, 1) (0, 0)) "tlbr" = .error (.unknownFormat "tlbr") ∧
    (∀ (coords : Coords) (fmt : String) (r : GeoRectangle),
      geoRectangle_extract coords fmt = .ok r →
      (r.max_longitude < r.min_longitude ∨ r.max_latitude < r.min_latitude) →
      geoRectangle_init coords fmt = .error .invalidDomain) := by
  constructor
  · rw [geoRectangle_init, extract_tlbr]
  · intro coords fmt r hex h
    exact init_invalid coords fmt r hex h

/-- Witness for C4_incoherent_minmax: llmm coordinates with
min_longitude 1 > max_longitude 0 raise the invalid-domain error. -/
theorem C4_witness :
    geoRectangle_init (.flat 1 0 0 1) "llmm" = .error .invalidDomain :=
  C4_incoherent_minmax.2 _ _ _ (extract_llmm 1 0 0 1) (Or.inl (by norm_num))

/-- Claim C2 (refuted for TorchgeoLandcover): on a unit square at
resolution 1, `ProbaLandcover.get_bytes_for_domain` returns a byte count
for both a GeoRectangle-compatible query and a torchgeo BoundingBox query,
and `TorchgeoLandcover.get_bytes_for_domain` does so for the BoundingBox
query; but the GeoRectangle query makes `TorchgeoLandcover`'s version read
the never-assigned local `qdomain` (its conditional has no `else` branch),
raising `UnboundLocalError` instead of returning an integer byte count. -/
theorem C2_get_bytes_normalization :
    TorchgeoLandcover.get_bytes_for_domain 1 (.rect ⟨0, 1, 0, 1⟩) = .error .unboundLocal ∧
    ProbaLandcover.get_bytes_for_domain 1 (.rect ⟨0, 1, 0, 1⟩) = .ok 32 ∧
    TorchgeoLandcover.get_bytes_for_domain 1 (.tgbox ⟨0, 1, 0, 1, 0, 1000000000000⟩) = .ok 8 ∧
    ProbaLandcover.get_bytes_for_domain 1 (.tgbox ⟨0, 1, 0, 1, 0, 1000000000000⟩) = .ok 32 := by
  have hinit : geoRectangle_init (.tgbox ⟨0, 1, 0, 1, 0, 1000000000000⟩) "tgbox"
      = .ok ⟨0, 1, 0, 1⟩ :=
    init_ok _ _ _ (extract_tgbox _) (by norm_num) (by norm_num)
  refine ⟨rfl, ?_, ?_, ?_⟩
  · norm_num [ProbaLandcover.get_bytes_for_domain, misc_get_bytes_for_domain,
      ProbaLandcover.element_size]
  · rw [TorchgeoLandcover.get_bytes_for_domain, hinit]
    norm_num [misc_get_bytes_for_domain, TorchgeoLandcover.element_size]
  · rw [ProbaLandcover.get_bytes_for_domain, hinit]
    norm_num [misc_get_bytes_for_domain, ProbaLandcover.element_size]

/-- Claim C3, counterexample to rounding: with a 60 m/px product, a 6000 m
patch and 180 embedding pixels, 180·60/6000 = 1.8; the code truncates with
`int(...)` and returns 1, while the claimed formula `round(...)` (modelled
by `get_resize_from_mapname_spec`) yields 2. -/
theorem C3_round_vs_trunc :
    get_resize_from_mapname (fun _ => 60) 6000 "esgp" ⟨180, "attention_autoencoder"⟩
      = some 1 ∧
    get_resize_from_mapname_spec (fun _ => 60) 6000 "esgp" ⟨180, "attention_autoencoder"⟩
      = some 2 := by
  constructor
  · norm_num [get_resize_from_mapname, pyInt, hdf5_key]
    decide
  · norm_num [get_resize_from_mapname_spec, hdf5_key, round_eq]

/-- Claim C3 as amended: `get_resize_from_mapname` returns
`int(embedding_pixels * product_resolution / patch_size_metres)` truncated
toward zero (not rounded to nearest), and whenever that truncated factor is
exactly 1 and the model type is `transformer_embedding` or
`universal_embedding` it returns the no-resize sentinel `None` instead of
the literal value 1. -/
theorem C3_resize_truncates (resolution_dict : String → ℚ) (patch_size_metres : ℚ)
    (mapname : String) (config : Config) :
    get_resize_from_mapname resolution_dict patch_size_metres mapname config =
      if (config.model_type = "transformer_embedding" ∨
            config.model_type = "universal_embedding") ∧
          pyInt (config.n_px_emb * resolution_dict (hdf5_key mapname)
            / patch_size_metres) = 1
      then none
      else some (pyInt (config.n_px_emb * resolution_dict (hdf5_key mapname)
            / patch_size_metres)) := by
  simp [get_resize_from_mapname]

/-- Claim C6 (confirmed): for any valid rectangle `R`, constructing from
`R.to_llmm()` with fmt="llmm" reconstructs a rectangle with exactly the
same four canonical fields. -/
theorem C6_llmm_roundtrip (R : GeoRectangle)
    (h1 : R.min_longitude ≤ R.max_longitude) (h2 : R.min_latitude ≤ R.max_latitude) :
    geoRectangle_init
      (.flat R.to_llmm.1 R.to_llmm.2.1 R.to_llmm.2.2.1 R.to_llmm.2.2.2) "llmm"
      = .ok R :=
  init_ok _ _ R (extract_llmm _ _ _ _) h1 h2

/-- Witness for C6_llmm_roundtrip at the waterville_kerry rectangle. -/
theorem C6_witness :
    geoRectangle_init (.flat (-10.2018) (-10.1518) 51.8020 51.8466) "llmm"
      = .ok ⟨-10.2018, -10.1518, 51.8020, 51.8466⟩ :=
  C6_llmm_roundtrip ⟨-10.2018, -10.1518, 51.8020, 51.8466⟩ (by norm_num) (by norm_num)

/-- Claim C8 (confirmed): `waterville_kerry` has the four stated canonical
fields and its `to_lbrt()` is `(-10.2018, 51.8020, -10.1518, 51.8466)`. -/
theorem C8_waterville_kerry :
    waterville_kerry = .ok ⟨-10.2018, -10.1518, 51.8020, 51.8466⟩ ∧
    GeoRectangle.to_lbrt ⟨-10.2018, -10.1518, 51.8020, 51.8466⟩
      = (-10.2018, 51.8020, -10.1518, 51.8466) := by
  constructor
  · exact init_ok _ _ _ (extract_llmm _ _ _ _) (by norm_num) (by norm_num)
  · rfl

/-- Claim C9 (confirmed): `to_lbrt` and `to_mmll` return the identical
4-tuple (min_longitude, min_latitude, max_longitude, max_latitude) for
every rectangle, although they are documented as different formats. -/
theorem C9_to_lbrt_eq_to_mmll (r : GeoRectangle) : r.to_lbrt = r.to_mmll := rfl

/-- Claim C10 (confirmed): llmm construction checks only the min ≤ max
ordering on each axis; any ordered coordinates construct successfully, with
no range check against ±180°/±90° (see the out-of-range witness). -/
theorem C10_no_range_check (a b c d : ℚ) (h1 : a ≤ b) (h2 : c ≤ d) :
    geoRectangle_init (.flat a b c d) "llmm" = .ok ⟨a, b, c, d⟩ :=
  init_ok _ _ _ (extract_llmm _ _ _ _) h1 h2

/-- Witness for C10_no_range_check at coordinates far outside the valid
global range: construction still succeeds. -/
theorem C10_witness :
    geoRectangle_init (.flat (-1000) 1000 (-500) 500) "llmm"
      = .ok ⟨-1000, 1000, -500, 500⟩ :=
  C10_no_range_check (-1000) 1000 (-500) 500 (by norm_num) (by norm_num)

/-- Claim C5 (confirmed): if tiles `i < j` of a dataset have geometrically
equal bounding boxes and both intersect the query domain, then with
`unique=False` both indices appear in the result (which lists indices in
dataset iteration order), while with `unique=True` index `j` is absent and
exactly one index carries that shared footprint: the first intersecting
index `k ≤ i` with a box equal to it. -/
theorem C5_find_intersection_dedup
    (ds : List GeoRectangle) (dom : GeoRectangle) (i j : ℕ)
    (hij : i < j) (hj : j < ds.length)
    (heq : sboxEquals (ds.getD i default) (ds.getD j default) = true)
    (hi : sboxIntersects dom (ds.getD i default) = true)
    (hjx : sboxIntersects dom (ds.getD j default) = true) :
    (i ∈ find_intersection ds dom false ∧ j ∈ find_intersection ds dom false ∧
      (find_intersection ds dom false).Pairwise (· < ·)) ∧
    j ∉ find_intersection ds dom true ∧
    (∃ k, k ≤ i ∧ k ∈ find_intersection ds dom true ∧
      sboxEquals (ds.getD k default) (ds.getD i default) = true ∧
      (∀ l, l < k → sboxEquals (ds.getD l default) (ds.getD i default) = true →
        sboxIntersects dom (ds.getD l default) = false) ∧
      (∀ m, m ∈ find_intersection ds dom true →
        sboxEquals (ds.getD m default) (ds.getD i default) = true → m = k)) := by
  have hi' : i < ds.length := hij.trans hj
  have hchar := mem_uniq_foldl ds dom ds.length
  rw [find_intersection_false_eq, find_intersection_true_eq]
  refine ⟨⟨?_, ?_, ?_⟩, ?_, ?_⟩
  · rw [List.mem_filter, List.mem_range]
    exact ⟨hi', hi⟩
  · rw [List.mem_filter, List.mem_range]
    exact ⟨hj, hjx⟩
  · exact List.Pairwise.filter _ (List.pairwise_lt_range _)
  · intro hmem
    have h := (hchar j).mp hmem
    have := h.2.2 i hij (sboxEquals_symm heq)
    rw [hi] at this
    simp at this
  · have hQ : ∃ x, sboxEquals (ds.getD x default) (ds.getD i default) = true ∧
        sboxIntersects dom (ds.getD x default) = true :=
      ⟨i, sboxEquals_refl _, hi⟩
    have hspec := Nat.find_spec hQ
    have hk0i : Nat.find hQ ≤ i := Nat.find_min' hQ ⟨sboxEquals_refl _, hi⟩
    have hfirst : ∀ l, l < Nat.find hQ →
        sboxEquals (ds.getD l default) (ds.getD i default) = true →
        sboxIntersects dom (ds.getD l default) = false := by
      intro l hl hleq
      by_contra hPl
      rw [Bool.not_eq_false] at hPl
      exact Nat.find_min hQ hl ⟨hleq, hPl⟩
    have hk0mem : Nat.find hQ ∈ (List.range ds.length).foldl (uniq_step ds dom) [] := by
      refine (hchar (Nat.find hQ)).mpr ⟨lt_of_le_of_lt hk0i hi', hspec.2, ?_⟩
      intro l hl hleq
      exact hfirst l hl (sboxEquals_trans (sboxEquals_symm hleq) hspec.1)
    refine ⟨Nat.find hQ, hk0i, hk0mem, hspec.1, hfirst, ?_⟩
    intro m hmem hmeq
    have hm := (hchar m).mp hmem
    rcases lt_trichotomy m (Nat.find hQ) with h | h | h
    · exact absurd ⟨hmeq, hm.2.1⟩ (Nat.find_min hQ h)
    · exact h
    · have := hm.2.2 (Nat.find hQ) h (sboxEquals_trans hmeq (sboxEquals_symm hspec.1))
      rw [hspec.2] at this
      simp at this

/-- Witness for C5_find_intersection_dedup on a two-tile dataset whose
tiles share the unit-square bounding box, queried with that same square. -/
theorem C5_witness :
    ((0 ∈ find_intersection [⟨0,1,0,1⟩, ⟨0,1,0,1⟩] ⟨0,1,0,1⟩ false ∧
      1 ∈ find_intersection [⟨0,1,0,1⟩, ⟨0,1,0,1⟩] ⟨0,1,0,1⟩ false ∧
      (find_intersection [⟨0,1,0,1⟩, ⟨0,1,0,1⟩] ⟨0,1,0,1⟩ false).Pairwise (· < ·)) ∧
    1 ∉ find_intersection [⟨0,1,0,1⟩, ⟨0,1,0,1⟩] ⟨0,1,0,1⟩ true ∧
    (∃ k, k ≤ 0 ∧ k ∈ find_intersection [⟨0,1,0,1⟩, ⟨0,1,0,1⟩] ⟨0,1,0,1⟩ true ∧
      sboxEquals (List.getD [⟨0,1,0,1⟩, ⟨0,1,0,1⟩] k default)
        (List.getD [⟨0,1,0,1⟩, ⟨0,1,0,1⟩] 0 default) = true ∧
      (∀ l, l < k →
        sboxEquals (List.getD [⟨0,1,0,1⟩, ⟨0,1,0,1⟩] l default)
          (List.getD [⟨0,1,0,1⟩, ⟨0,1,0,1⟩] 0 default) = true →
        sboxIntersects ⟨0,1,0,1⟩ (List.getD [⟨0,1,0,1⟩, ⟨0,1,0,1⟩] l default) = false) ∧
      (∀ m, m ∈ find_intersection [⟨0,1,0,1⟩, ⟨0,1,0,1⟩] ⟨0,1,0,1⟩ true →
        sboxEquals (List.getD [⟨0,1,0,1⟩, ⟨0,1,0,1⟩] m default)
          (List.getD [⟨0,1,0,1⟩, ⟨0,1,0,1⟩] 0 default) = true → m = k))) :=
  C5_find_intersection_dedup [⟨0,1,0,1⟩, ⟨0,1,0,1⟩] ⟨0,1,0,1⟩ 0 1
    (by decide) (by decide) (by decide) (by decide) (by decide)

/-- Claim C7 (confirmed): for a rectangle within the valid global range and
factors `0 ≤ factor1 < factor2`, `enlarge(factor2)` contains
`enlarge(factor1)` contains the original, the enlarged bounds stay clamped
inside ±180° longitude and ±90° latitude, and `enlarge(0)` returns exactly
the same extent. -/
theorem C7_enlarge_monotone (R : GeoRectangle) (f1 f2 : ℚ)
    (hx : R.min_longitude ≤ R.max_longitude)
    (hy : R.min_latitude ≤ R.max_latitude)
    (hlon1 : -180 ≤ R.min_longitude) (hlon2 : R.max_longitude ≤ 180)
    (hlat1 : -90 ≤ R.min_latitude) (hlat2 : R.max_latitude ≤ 90)
    (hf1 : 0 ≤ f1) (hf12 : f1 < f2) :
    ∃ S1 S2, R.enlarge f1 = .ok S1 ∧ R.enlarge f2 = .ok S2 ∧
      S2.contains S1 ∧ S1.contains R ∧
      (-180 ≤ S2.min_longitude ∧ S2.max_longitude ≤ 180 ∧
        -90 ≤ S2.min_latitude ∧ S2.max_latitude ≤ 90) ∧
      R.enlarge 0 = .ok R := by
  have hf2 : 0 ≤ f2 := hf1.trans hf12.le
  have hdx : 0 ≤ R.max_longitude - R.min_longitude := by linarith
  have hdy : 0 ≤ R.max_latitude - R.min_latitude := by linarith
  have h12x : f1 * (R.max_longitude - R.min_longitude)
      ≤ f2 * (R.max_longitude - R.min_longitude) :=
    mul_le_mul_of_nonneg_right hf12.le hdx
  have h12y : f1 * (R.max_latitude - R.min_latitude)
      ≤ f2 * (R.max_latitude - R.min_latitude) :=
    mul_le_mul_of_nonneg_right hf12.le hdy
  have hfdx1 : 0 ≤ f1 * (R.max_longitude - R.min_longitude) := mul_nonneg hf1 hdx
  have hfdy1 : 0 ≤ f1 * (R.max_latitude - R.min_latitude) := mul_nonneg hf1 hdy
  refine ⟨_, _,
    enlarge_domain_eq R f1 hx hy hlon1 hlon2 hlat1 hlat2 hf1,
    enlarge_domain_eq R f2 hx hy hlon1 hlon2 hlat1 hlat2 hf2, ?_, ?_, ?_, ?_⟩
  · exact ⟨max_le_max le_rfl (by linarith), min_le_min le_rfl (by linarith),
      max_le_max le_rfl (by linarith), min_le_min le_rfl (by linarith)⟩
  · exact ⟨max_le hlon1 (by linarith), le_min hlon2 (by linarith),
      max_le hlat1 (by linarith), le_min hlat2 (by linarith)⟩
  · exact ⟨le_max_left _ _, min_le_left _ _, le_max_left _ _, min_le_left _ _⟩
  · have e0 := enlarge_domain_eq R 0 hx hy hlon1 hlon2 hlat1 hlat2 le_rfl
    rw [GeoRectangle.enlarge, e0]
    rw [zero_mul, zero_mul, sub_zero, sub_zero, add_zero, add_zero]
    rw [max_eq_right hlon1, min_eq_right hlon2, max_eq_right hlat1, min_eq_right hlat2]

/-- Witness for C7_enlarge_monotone at the unit square with factors 1/2
and 1. -/
theorem C7_witness :
    ∃ S1 S2, GeoRectangle.enlarge ⟨0, 1, 0, 1⟩ (1/2) = .ok S1 ∧
      GeoRectangle.enlarge ⟨0, 1, 0, 1⟩ 1 = .ok S2 ∧
      S2.contains S1 ∧ S1.contains ⟨0, 1, 0, 1⟩ ∧
      (-180 ≤ S2.min_longitude ∧ S2.max_longitude ≤ 180 ∧
        -90 ≤ S2.min_latitude ∧ S2.max_latitude ≤ 90) ∧
      GeoRectangle.enlarge ⟨0, 1, 0, 1⟩ 0 = .ok ⟨0, 1, 0, 1⟩ :=
  C7_enlarge_monotone ⟨0, 1, 0, 1⟩ (1/2) 1 (by norm_num) (by norm_num) (by norm_num)
    (by norm_num) (by norm_num) (by norm_num) (by norm_num) (by norm_num)
